import Mathlib

/-!
Verification of the FitScore units library: a shallow embedding of the
unit-conversion engine (`units.ts`), the formatting helper
(`formatting.ts`) and the migration utilities (`migration-utils.ts`).
Numbers are modelled as exact rationals (`ℚ`); JavaScript exceptions are
modelled as `Option`/`Except`; `null`/`undefined`/`NaN` inputs are
modelled by the `JSNum` type.
-/

namespace FitScore

/-- String helper mirroring JavaScript `String.prototype.includes`:
`jsIncludes s pat` is true when `pat` occurs as a contiguous substring of `s`. -/
def includesAux (pat : List Char) : List Char → Bool
  | [] => pat.isEmpty
  | c :: rest => List.isPrefixOf pat (c :: rest) || includesAux pat rest

def jsIncludes (s pat : String) : Bool := includesAux pat.data s.data

/-- ASCII lower-casing, mirroring `String.prototype.toLowerCase` on the
ASCII unit strings this library deals with. -/
def jsToLower (s : String) : String := String.mk (s.data.map Char.toLower)

/-- Whitespace trimming, mirroring `String.prototype.trim`. -/
def jsTrim (s : String) : String :=
  String.mk (((s.data.dropWhile Char.isWhitespace).reverse.dropWhile Char.isWhitespace).reverse)

/-- A JavaScript number argument that may be `null`, `undefined` or `NaN`
(used by the `safeConvert*` entry points and `formatBaseValue`). -/
inductive JSNum where
  | null
  | undef
  | nan
  | num (q : ℚ)
deriving DecidableEq

/-- Lookup in the `TO_BASE_FACTORS` record of `units.ts`: each registered
display unit maps to its multiplicative factor and its base unit. -/
def TO_BASE_FACTORS (u : String) : Option (ℚ × String) :=
  if u = "kg" then some (1, "kg")
  else if u = "lb" then some (0.45359237, "kg")
  else if u = "m" then some (1, "m")
  else if u = "cm" then some (0.01, "m")
  else if u = "in" then some (0.0254, "m")
  else if u = "ft" then some (0.3048, "m")
  else if u = "s" then some (1, "s")
  else if u = "min" then some (60, "s")
  else if u = "m/s" then some (1, "m/s")
  else if u = "km/h" then some (1 / 3.6, "m/s")
  else if u = "mph" then some (0.44704, "m/s")
  else none

/-- `toBase(value, displayUnit)` from `units.ts`; `none` models the thrown
`Unknown display unit` error. -/
def toBase (value : ℚ) (displayUnit : String) : Option ℚ :=
  (TO_BASE_FACTORS displayUnit).map (fun conversion => value * conversion.1)

/-- `fromBase(baseValue, displayUnit)` from `units.ts`. -/
def fromBase (baseValue : ℚ) (displayUnit : String) : Option ℚ :=
  (TO_BASE_FACTORS displayUnit).map (fun conversion => baseValue / conversion.1)

/-- `getBaseUnit(displayUnit)` from `units.ts`. -/
def getBaseUnit (displayUnit : String) : Option String :=
  (TO_BASE_FACTORS displayUnit).map (fun conversion => conversion.2)

/-- `validateRoundTrip(value, unit, tolerance = 1e-10)` from `units.ts`. -/
def validateRoundTrip (value : ℚ) (unit : String) (tolerance : ℚ := 1 / 10 ^ 10) :
    Option Bool :=
  (toBase value unit).bind (fun baseValue =>
    (fromBase baseValue unit).map (fun backToDisplay =>
      decide (|value - backToDisplay| < tolerance)))

/-- Error taxonomy of the strict conversion functions in `units.ts`. -/
inductive UnitError where
  | unknownUnit (unit : String)
  | invalidUnits (fromUnit toUnit : String)
  | incompatibleUnits (fromBaseUnit toBaseUnit : String)
deriving DecidableEq

/-- `convertUnit(value, fromUnit, toUnit)` from `units.ts`: both units must
be registered, their base units must agree, and only then the arithmetic
`fromBase(toBase(value, fromUnit), toUnit)` runs. -/
def convertUnit (value : ℚ) (fromUnit toUnit : String) : Except UnitError ℚ :=
  match TO_BASE_FACTORS fromUnit, TO_BASE_FACTORS toUnit with
  | none, _ => Except.error (UnitError.invalidUnits fromUnit toUnit)
  | some _, none => Except.error (UnitError.invalidUnits fromUnit toUnit)
  | some fromConversion, some toConversion =>
    if fromConversion.2 ≠ toConversion.2 then
      Except.error (UnitError.incompatibleUnits fromConversion.2 toConversion.2)
    else
      match toBase value fromUnit with
      | none => Except.error (UnitError.unknownUnit fromUnit)
      | some baseValue =>
        match fromBase baseValue toUnit with
        | none => Except.error (UnitError.unknownUnit toUnit)
        | some r => Except.ok r

/-- The `keyof UnitPreferences` type of the shipped `units.ts`: the four
unit families its classifier can return. -/
inductive UnitFamily where
  | mass
  | distance
  | time
  | speed
deriving DecidableEq

/-- The `UnitPreferences` interface of the shipped `units.ts`. -/
structure UnitPreferences where
  mass : String
  distance : String
  time : String
  speed : String
deriving DecidableEq

def DEFAULT_PREFERENCES : UnitPreferences := ⟨"kg", "m", "s", "m/s"⟩

/-- `getDisplayUnit(metricType, preferences)` from `units.ts`. -/
def getDisplayUnit (metricType : UnitFamily) (preferences : UnitPreferences) : String :=
  match metricType with
  | UnitFamily.mass => preferences.mass
  | UnitFamily.distance => preferences.distance
  | UnitFamily.time => preferences.time
  | UnitFamily.speed => preferences.speed

/-- `getMetricType(metricKey)` from the shipped `units.ts`: substring
heuristics over the four families, then exemplar lists, then the
`distance` fallback. -/
def getMetricType (metricKey : String) : UnitFamily :=
  if jsIncludes metricKey "weight" || jsIncludes metricKey "mass" then UnitFamily.mass
  else if jsIncludes metricKey "height" || jsIncludes metricKey "distance" ||
      jsIncludes metricKey "jump" then UnitFamily.distance
  else if jsIncludes metricKey "time" || jsIncludes metricKey "duration" then UnitFamily.time
  else if jsIncludes metricKey "speed" || jsIncludes metricKey "velocity" then UnitFamily.speed
  else if ["body_weight", "max_weight", "load"].any (fun m => jsIncludes metricKey m) then
    UnitFamily.mass
  else if ["vertical_jump", "broad_jump", "reach", "height"].any
      (fun m => jsIncludes metricKey m) then UnitFamily.distance
  else if ["sprint_time", "reaction_time", "hold_time"].any
      (fun m => jsIncludes metricKey m) then UnitFamily.time
  else if ["max_speed", "average_speed"].any (fun m => jsIncludes metricKey m) then
    UnitFamily.speed
  else UnitFamily.distance

/-- `safeConvertToBase(value, displayUnit)` from `units.ts`: a
`null`/`undefined`/`NaN` value short-circuits to `null`; conversion errors
are caught and reported as `null`. -/
def safeConvertToBase (value : JSNum) (displayUnit : String) : Option ℚ :=
  match value with
  | JSNum.num q => toBase q displayUnit
  | _ => none

/-- `safeConvertFromBase(baseValue, displayUnit)` from `units.ts`. -/
def safeConvertFromBase (baseValue : JSNum) (displayUnit : String) : Option ℚ :=
  match baseValue with
  | JSNum.num q => fromBase q displayUnit
  | _ => none

/-- Decimal digit list of a natural number (mirrors how
`Number.prototype.toFixed` prints its rounded integer part). -/
def natDigits (fuel n : ℕ) : List Char :=
  match fuel with
  | 0 => []
  | fuel + 1 =>
    if n < 10 then [Char.ofNat (48 + n)]
    else natDigits fuel (n / 10) ++ [Char.ofNat (48 + n % 10)]

/-- Rendering of a scaled integer with `p` decimal places. -/
def renderFixed (scaled : ℤ) (p : ℕ) : String :=
  let sign : String := if scaled < 0 then "-" else ""
  let ds : List Char := natDigits (scaled.natAbs + 1) scaled.natAbs
  if p = 0 then sign ++ String.mk ds
  else
    let padded : List Char := List.replicate (p + 1 - ds.length) (Char.ofNat 48) ++ ds
    sign ++ String.mk (padded.take (padded.length - p)) ++ "." ++
      String.mk (padded.drop (padded.length - p))

/-- Model of `Number.prototype.toFixed(p)`: round to `p` decimal places
(ties toward positive infinity, as ECMA-262 specifies) and print with
exactly `p` digits after the point. -/
def toFixed (q : ℚ) (p : ℕ) : String :=
  renderFixed ⌊q * (10 : ℚ) ^ p + 1 / 2⌋ p

/-- `formatValue(baseValue, displayUnit, precision = 2)` from `units.ts`:
the display value rendered with fixed precision, a space and the unit. -/
def formatValue (baseValue : ℚ) (displayUnit : String) (precision : ℕ := 2) :
    Option String :=
  match fromBase baseValue displayUnit with
  | none => none
  | some displayValue => some (toFixed displayValue precision ++ " " ++ displayUnit)

/-- The `FormattedValue` record of `formatting.ts`. -/
structure FormattedValue where
  displayValue : Option ℚ
  formattedValue : String
  unit : String
deriving DecidableEq

/-- `formatBaseValue(baseValue, metricKey, preferences, precision)` from
`formatting.ts`: a `null`/`undefined`/`NaN` base value renders the
placeholder glyph together with the unit that would have been used. -/
def formatBaseValue (baseValue : JSNum) (metricKey : String)
    (preferences : UnitPreferences := DEFAULT_PREFERENCES) (precision : ℕ := 2) :
    Option FormattedValue :=
  match baseValue with
  | JSNum.num q =>
    match fromBase q (getDisplayUnit (getMetricType metricKey) preferences),
        formatValue q (getDisplayUnit (getMetricType metricKey) preferences) precision with
    | some d, some f => some ⟨some d, f, getDisplayUnit (getMetricType metricKey) preferences⟩
    | _, _ => none
  | _ => some ⟨none, "—", getDisplayUnit (getMetricType metricKey) preferences⟩

/-- The `TestResultMigrationData` record of `migration-utils.ts`. -/
structure TestResultMigrationData where
  result_id : String
  test_key : String
  value : ℚ
  units : Option String
deriving DecidableEq

/-- The `MigratedTestResult` record of `migration-utils.ts`. -/
structure MigratedTestResult where
  result_id : String
  value_base : ℚ
  value_raw : ℚ
  unit_raw : Option String
deriving DecidableEq

/-- The apostrophe character, used as the feet alias in
`normalizeUnitString`. -/
def singleQuote : String := String.mk [Char.ofNat 39]

/-- `normalizeUnitString(unit)` from `migration-utils.ts`: lower-case and
trim, then match the alias table; unmatched input is returned unchanged. -/
def normalizeUnitString (unit : String) : String :=
  let n := jsTrim (jsToLower unit)
  if n = "kg" ∨ n = "kilogram" ∨ n = "kilograms" then "kg"
  else if n = "lb" ∨ n = "lbs" ∨ n = "pound" ∨ n = "pounds" then "lb"
  else if n = "m" ∨ n = "meter" ∨ n = "meters" ∨ n = "metre" ∨ n = "metres" then "m"
  else if n = "cm" ∨ n = "centimeter" ∨ n = "centimeters" ∨ n = "centimetre" ∨
      n = "centimetres" then "cm"
  else if n = "in" ∨ n = "inch" ∨ n = "inches" ∨ n = "\"" then "in"
  else if n = "ft" ∨ n = "foot" ∨ n = "feet" ∨ n = singleQuote then "ft"
  else if n = "s" ∨ n = "sec" ∨ n = "second" ∨ n = "seconds" then "s"
  else if n = "min" ∨ n = "minute" ∨ n = "minutes" then "min"
  else if n = "m/s" ∨ n = "mps" ∨ n = "meters/second" ∨ n = "metres/second" then "m/s"
  else if n = "km/h" ∨ n = "kmh" ∨ n = "kph" ∨ n = "kilometers/hour" then "km/h"
  else if n = "mph" ∨ n = "miles/hour" ∨ n = "miles per hour" then "mph"
  else unit

/-- `migrateTestResult(result)` from `migration-utils.ts`: total on
records; the original value and unit string are always kept in the audit
fields, and `value_base` degrades to the raw value when no conversion
applies. -/
def migrateTestResult (result : TestResultMigrationData) : MigratedTestResult :=
  match result.units with
  | none => ⟨result.result_id, result.value, result.value, result.units⟩
  | some u =>
    if u = "" ∨ jsTrim u = "" then
      ⟨result.result_id, result.value, result.value, result.units⟩
    else
      match toBase result.value (normalizeUnitString u) with
      | some value_base => ⟨result.result_id, value_base, result.value, result.units⟩
      | none => ⟨result.result_id, result.value, result.value, result.units⟩

/-- `migrateTestResults(results)` from `migration-utils.ts`. -/
def migrateTestResults (results : List TestResultMigrationData) :
    List MigratedTestResult :=
  results.map migrateTestResult

/-- Mutable accumulators of the `validateMigration` loop. -/
structure ValState where
  errors : List String
  warnings : List String
  converted : ℕ
  unchanged : ℕ
  failed : ℕ
deriving DecidableEq

/-- The per-index body of the `validateMigration` loop: an ID mismatch
records one error and skips every other check for that pair (`continue`);
otherwise the pair is classified converted/unchanged, a suspicious ratio
is recorded as a warning, and the two audit-trail checks each add an
error. -/
def valStep (i : ℕ) (orig : TestResultMigrationData) (mig : MigratedTestResult)
    (s : ValState) : ValState :=
  if orig.result_id ≠ mig.result_id then
    ⟨s.errors ++ ["ID mismatch at index " ++ toString i ++ ": " ++ orig.result_id ++
        " vs " ++ mig.result_id],
      s.warnings, s.converted, s.unchanged, s.failed + 1⟩
  else
    let s1 : ValState :=
      if |orig.value - mig.value_base| < 1 / 10 ^ 10 then
        ⟨s.errors, s.warnings, s.converted, s.unchanged + 1, s.failed⟩
      else
        let rq := mig.value_base / orig.value
        if rq < 1 / 1000 ∨ rq > 1000 then
          ⟨s.errors, s.warnings ++ ["Suspicious conversion for " ++ orig.result_id],
            s.converted + 1, s.unchanged, s.failed⟩
        else
          ⟨s.errors, s.warnings, s.converted + 1, s.unchanged, s.failed⟩
    let s2 : ValState :=
      if mig.value_raw ≠ orig.value then
        ⟨s1.errors ++ ["Audit trail mismatch for " ++ orig.result_id ++ ": value_raw"],
          s1.warnings, s1.converted, s1.unchanged, s1.failed + 1⟩
      else s1
    if mig.unit_raw ≠ orig.units then
      ⟨s2.errors ++ ["Audit trail mismatch for " ++ orig.result_id ++ ": unit_raw"],
        s2.warnings, s2.converted, s2.unchanged, s2.failed + 1⟩
    else s2

/-- Index-driven traversal of the two equal-length record sequences. -/
def valLoop (i : ℕ) (original : List TestResultMigrationData)
    (migrated : List MigratedTestResult) (s : ValState) : ValState :=
  match original, migrated with
  | orig :: os, mig :: ms => valLoop (i + 1) os ms (valStep i orig mig s)
  | _, _ => s

/-- The report record returned by `validateMigration`. -/
structure ValidationStats where
  total : ℕ
  converted : ℕ
  unchanged : ℕ
  failed : ℕ
deriving DecidableEq

structure ValidationResult where
  success : Bool
  errors : List String
  warnings : List String
  stats : ValidationStats
deriving DecidableEq

/-- `validateMigration(original, migrated)` from `migration-utils.ts`. -/
def validateMigration (original : List TestResultMigrationData)
    (migrated : List MigratedTestResult) : ValidationResult :=
  if original.length ≠ migrated.length then
    ⟨false,
      ["Length mismatch: original " ++ toString original.length ++ ", migrated " ++
          toString migrated.length],
      [],
      ⟨original.length, 0, 0, original.length⟩⟩
  else
    let s := valLoop 0 original migrated ⟨[], [], 0, 0, 0⟩
    ⟨s.errors.isEmpty, s.errors, s.warnings,
      ⟨original.length, s.converted, s.unchanged, s.failed⟩⟩

/-! Helper lemmas shared by several of the theorems below. -/

/-- Migration always copies the id, the raw value and the raw unit string
into the output record, on every code path. -/
lemma migrate_fields (r : TestResultMigrationData) :
    (migrateTestResult r).result_id = r.result_id ∧
    (migrateTestResult r).value_raw = r.value ∧
    (migrateTestResult r).unit_raw = r.units := by
  unfold migrateTestResult
  cases hu : r.units with
  | none => exact ⟨rfl, rfl, rfl⟩
  | some u =>
    dsimp only
    by_cases he : u = "" ∨ jsTrim u = ""
    · rw [if_pos he]
      exact ⟨rfl, rfl, rfl⟩
    · rw [if_neg he]
      cases toBase r.value (normalizeUnitString u) <;> exact ⟨rfl, rfl, rfl⟩

/-- A validation step on a record paired with its own migration output
adds no error and no failure. -/
lemma valStep_self (i : ℕ) (r : TestResultMigrationData) (s : ValState) :
    (valStep i r (migrateTestResult r) s).errors = s.errors ∧
    (valStep i r (migrateTestResult r) s).failed = s.failed := by
  obtain ⟨hid, hvr, hur⟩ := migrate_fields r
  unfold valStep
  rw [hid, hvr, hur]
  rw [if_neg (show ¬r.result_id ≠ r.result_id from by simp)]
  dsimp only
  rw [if_neg (show ¬r.units ≠ r.units from by simp),
    if_neg (show ¬r.value ≠ r.value from by simp)]
  split
  · exact ⟨rfl, rfl⟩
  · split
    · exact ⟨rfl, rfl⟩
    · exact ⟨rfl, rfl⟩

/-- Folding the validation loop over a batch paired with its own
migration output leaves the error list and failure count unchanged. -/
lemma valLoop_self (os : List TestResultMigrationData) :
    ∀ (i : ℕ) (s : ValState),
      (valLoop i os (os.map migrateTestResult) s).errors = s.errors ∧
      (valLoop i os (os.map migrateTestResult) s).failed = s.failed := by
  induction os with
  | nil => exact fun i s => ⟨rfl, rfl⟩
  | cons r os ih =>
    intro i s
    simp only [List.map_cons, valLoop]
    obtain ⟨h1, h2⟩ := ih (i + 1) (valStep i r (migrateTestResult r) s)
    obtain ⟨g1, g2⟩ := valStep_self i r s
    exact ⟨h1.trans g1, h2.trans g2⟩

/-! Claim theorems. -/

/-- C2: `migrateTestResult` is total, always copies the raw value and raw
unit string into the audit fields, and `value_base` is the raw value when
the unit is absent/blank or unregistered after normalization, and is
`toBase` of the normalized unit otherwise. -/
theorem C2_migrateOne (r : TestResultMigrationData) :
    (migrateTestResult r).result_id = r.result_id ∧
    (migrateTestResult r).value_raw = r.value ∧
    (migrateTestResult r).unit_raw = r.units ∧
    (r.units = none → (migrateTestResult r).value_base = r.value) ∧
    (∀ u, r.units = some u → (u = "" ∨ jsTrim u = "") →
      (migrateTestResult r).value_base = r.value) ∧
    (∀ u, r.units = some u → ¬(u = "" ∨ jsTrim u = "") →
      toBase r.value (normalizeUnitString u) = none →
      (migrateTestResult r).value_base = r.value) ∧
    (∀ u vb, r.units = some u → ¬(u = "" ∨ jsTrim u = "") →
      toBase r.value (normalizeUnitString u) = some vb →
      (migrateTestResult r).value_base = vb) := by
  obtain ⟨h1, h2, h3⟩ := migrate_fields r
  refine ⟨h1, h2, h3, ?_, ?_, ?_, ?_⟩
  · intro hu
    unfold migrateTestResult
    rw [hu]
  · intro u hu he
    unfold migrateTestResult
    rw [hu]
    simp only [if_pos he]
  · intro u hu he htb
    unfold migrateTestResult
    rw [hu]
    simp only [if_neg he, htb]
  · intro u vb hu he htb
    unfold migrateTestResult
    rw [hu]
    simp only [if_neg he, htb]

theorem C2_migrateOne_witness :
    ((⟨"1", "body_weight", 5, some "lbs"⟩ : TestResultMigrationData).units = some "lbs") ∧
    ¬("lbs" = "" ∨ jsTrim "lbs" = "") ∧
    toBase (5 : ℚ) (normalizeUnitString "lbs") = some (5 * 0.45359237) ∧
    (migrateTestResult ⟨"1", "body_weight", 5, some "lbs"⟩).value_raw = 5 ∧
    (migrateTestResult ⟨"1", "body_weight", 5, some "lbs"⟩).value_base = 5 * 0.45359237 :=
  ⟨rfl, by decide, rfl,
    (C2_migrateOne ⟨"1", "body_weight", 5, some "lbs"⟩).2.1,
    (C2_migrateOne ⟨"1", "body_weight", 5, some "lbs"⟩).2.2.2.2.2.2 "lbs"
      (5 * 0.45359237) rfl (by decide) rfl⟩

/-- C3: evaluation of the shipped classifier at the claim's exemplar keys:
the code returns `distance` for `height`, `deep_squat` and `push_ups`,
where the claim (and the repository's own test suite) expects `length`,
`score` and `count`; the classifier of the shipped `units.ts` has no
exact-family keyword scan and cannot return those families at all. -/
theorem C3_classifier_divergence :
    getMetricType "height" = UnitFamily.distance ∧
    getMetricType "deep_squat" = UnitFamily.distance ∧
    getMetricType "push_ups" = UnitFamily.distance ∧
    getMetricType "body_weight" = UnitFamily.mass ∧
    getMetricType "vertical_jump" = UnitFamily.distance ∧
    getMetricType "unknown_metric" = UnitFamily.distance := by
  refine ⟨by decide, by decide, by decide, by decide, by decide, by decide⟩

/-- C4: the shipped conversion table has no identity entries for `count`,
`percent`, `score` or `reps`: `toBase` on each of them fails with the
unknown-unit error instead of returning the value unchanged as the claim
states. -/
theorem C4_identity_units_divergence :
    TO_BASE_FACTORS "count" = none ∧ TO_BASE_FACTORS "percent" = none ∧
    TO_BASE_FACTORS "score" = none ∧ TO_BASE_FACTORS "reps" = none ∧
    toBase 5 "count" = none ∧ toBase 5 "percent" = none ∧
    toBase 5 "score" = none ∧ toBase 5 "reps" = none := by
  refine ⟨rfl, rfl, rfl, rfl, rfl, rfl, rfl, rfl⟩

/-- C5: `convertUnit` on two registered units with different base units
fails with the incompatible-units error for every value, and on two
registered units with the same base unit it returns
`fromBase(toBase(value, fromUnit), toUnit)`. -/
theorem C5_convertUnit :
    (∀ (v : ℚ) (u1 u2 : String) (c1 c2 : ℚ × String),
      TO_BASE_FACTORS u1 = some c1 → TO_BASE_FACTORS u2 = some c2 → c1.2 ≠ c2.2 →
      convertUnit v u1 u2 = Except.error (UnitError.incompatibleUnits c1.2 c2.2)) ∧
    (∀ (v : ℚ) (u1 u2 : String) (c1 c2 : ℚ × String),
      TO_BASE_FACTORS u1 = some c1 → TO_BASE_FACTORS u2 = some c2 → c1.2 = c2.2 →
      toBase v u1 = some (v * c1.1) ∧
      fromBase (v * c1.1) u2 = some (v * c1.1 / c2.1) ∧
      convertUnit v u1 u2 = Except.ok (v * c1.1 / c2.1)) := by
  constructor
  · intro v u1 u2 c1 c2 h1 h2 hne
    unfold convertUnit
    rw [h1, h2]
    dsimp only
    rw [if_pos hne]
  · intro v u1 u2 c1 c2 h1 h2 heq
    have htb : toBase v u1 = some (v * c1.1) := by unfold toBase; rw [h1]; rfl
    have hfb : fromBase (v * c1.1) u2 = some (v * c1.1 / c2.1) := by
      unfold fromBase; rw [h2]; rfl
    refine ⟨htb, hfb, ?_⟩
    unfold convertUnit
    rw [h1, h2]
    dsimp only
    rw [if_neg (show ¬c1.2 ≠ c2.2 from by simp [heq])]
    rw [htb]
    dsimp only
    rw [hfb]

theorem C5_convertUnit_witness :
    convertUnit 5 "kg" "m" = Except.error (UnitError.incompatibleUnits "kg" "m") ∧
    convertUnit 5 "m" "cm" = Except.ok (5 * 1 / 0.01) :=
  ⟨C5_convertUnit.1 5 "kg" "m" (1, "kg") (1, "m") rfl rfl (by decide),
    (C5_convertUnit.2 5 "m" "cm" (1, "m") (0.01, "m") rfl rfl rfl).2.2⟩

/-- C6: the safe conversion wrappers return `null` for
`null`/`undefined`/`NaN` inputs and for unregistered units, and agree
exactly with the strict conversions on numeric values with registered
units; they never raise. -/
theorem C6_safeConvert :
    (∀ u, safeConvertToBase JSNum.null u = none ∧
      safeConvertToBase JSNum.undef u = none ∧
      safeConvertToBase JSNum.nan u = none ∧
      safeConvertFromBase JSNum.null u = none ∧
      safeConvertFromBase JSNum.undef u = none ∧
      safeConvertFromBase JSNum.nan u = none) ∧
    (∀ (v : ℚ) (u : String), TO_BASE_FACTORS u = none →
      safeConvertToBase (JSNum.num v) u = none ∧
      safeConvertFromBase (JSNum.num v) u = none) ∧
    (∀ (v : ℚ) (u : String) (c : ℚ × String), TO_BASE_FACTORS u = some c →
      safeConvertToBase (JSNum.num v) u = toBase v u ∧
      toBase v u = some (v * c.1) ∧
      safeConvertFromBase (JSNum.num v) u = fromBase v u ∧
      fromBase v u = some (v / c.1)) := by
  refine ⟨fun u => ⟨rfl, rfl, rfl, rfl, rfl, rfl⟩, ?_, ?_⟩
  · intro v u h
    constructor
    · show toBase v u = none
      unfold toBase
      rw [h]
      rfl
    · show fromBase v u = none
      unfold fromBase
      rw [h]
      rfl
  · intro v u c h
    refine ⟨rfl, ?_, rfl, ?_⟩
    · unfold toBase; rw [h]; rfl
    · unfold fromBase; rw [h]; rfl

theorem C6_safeConvert_witness :
    safeConvertToBase JSNum.null "kg" = none ∧
    safeConvertToBase JSNum.nan "kg" = none ∧
    safeConvertToBase (JSNum.num 100) "bogus" = none ∧
    safeConvertToBase (JSNum.num 100) "kg" = some (100 * 1) :=
  ⟨(C6_safeConvert.1 "kg").1,
    (C6_safeConvert.1 "kg").2.2.1,
    (C6_safeConvert.2.1 100 "bogus" rfl).1,
    ((C6_safeConvert.2.2 100 "kg" (1, "kg") rfl).1).trans
      ((C6_safeConvert.2.2 100 "kg" (1, "kg") rfl).2.1)⟩

/-- C7: a length mismatch yields a failed report counting every original
record with no per-record classification; `success` is exactly emptiness
of the error list (so warnings never affect it); and an ID mismatch at an
index adds one error and one failure and skips every other check for that
pair. -/
theorem C7_validateMigration :
    (∀ o m, o.length ≠ m.length →
      (validateMigration o m).success = false ∧
      (validateMigration o m).stats.failed = o.length ∧
      (validateMigration o m).stats.converted = 0 ∧
      (validateMigration o m).stats.unchanged = 0) ∧
    (∀ o m, ((validateMigration o m).success = true ↔
      (validateMigration o m).errors = [])) ∧
    (∀ i orig mig s, orig.result_id ≠ mig.result_id →
      (valStep i orig mig s).warnings = s.warnings ∧
      (valStep i orig mig s).converted = s.converted ∧
      (valStep i orig mig s).unchanged = s.unchanged ∧
      (valStep i orig mig s).failed = s.failed + 1 ∧
      (valStep i orig mig s).errors.length = s.errors.length + 1) := by
  refine ⟨?_, ?_, ?_⟩
  · intro o m h
    unfold validateMigration
    rw [if_pos h]
    exact ⟨rfl, rfl, rfl, rfl⟩
  · intro o m
    unfold validateMigration
    split
    · simp
    · dsimp only
      generalize (valLoop 0 o m ⟨[], [], 0, 0, 0⟩).errors = l
      cases l <;> simp
  · intro i orig mig s h
    unfold valStep
    rw [if_pos h]
    refine ⟨rfl, rfl, rfl, rfl, ?_⟩
    simp

theorem C7_validateMigration_witness :
    (validateMigration
        [⟨"a", "k", 1, none⟩, ⟨"b", "k", 2, none⟩]
        [⟨"a", 1, 1, none⟩]).success = false ∧
    (validateMigration
        [⟨"a", "k", 1, none⟩, ⟨"b", "k", 2, none⟩]
        [⟨"a", 1, 1, none⟩]).stats.failed = 2 :=
  ⟨(C7_validateMigration.1 [⟨"a", "k", 1, none⟩, ⟨"b", "k", 2, none⟩]
      [⟨"a", 1, 1, none⟩] (by decide)).1,
    (C7_validateMigration.1 [⟨"a", "k", 1, none⟩, ⟨"b", "k", 2, none⟩]
      [⟨"a", 1, 1, none⟩] (by decide)).2.1⟩

/-- C8: the conversion constants: every family base unit converts to base
as the identity; `fromBase(1,'cm') = 100`; ten metres per second reads as
36 km/h; and the pound and mph factors invert to the expected decimal
constants within 1e-5. -/
theorem C8_constants :
    (∀ v : ℚ, toBase v "kg" = some v ∧ toBase v "m" = some v ∧
      toBase v "s" = some v ∧ toBase v "m/s" = some v) ∧
    fromBase 1 "cm" = some 100 ∧
    (toBase 10 "m/s").bind (fun b => fromBase b "km/h") = some 36 ∧
    (∃ x, fromBase 1 "lb" = some x ∧ |x - 2.20462| ≤ 1 / 10 ^ 5) ∧
    (∃ x, fromBase 1 "mph" = some x ∧ |x - 2.23694| ≤ 1 / 10 ^ 5) := by
  refine ⟨?_, ?_, ?_, ?_, ?_⟩
  · intro v
    refine ⟨?_, ?_, ?_, ?_⟩
    · rw [show toBase v "kg" = some (v * 1) from rfl, mul_one]
    · rw [show toBase v "m" = some (v * 1) from rfl, mul_one]
    · rw [show toBase v "s" = some (v * 1) from rfl, mul_one]
    · rw [show toBase v "m/s" = some (v * 1) from rfl, mul_one]
  · rw [show fromBase 1 "cm" = some ((1 : ℚ) / 0.01) from rfl]
    norm_num
  · rw [show (toBase 10 "m/s").bind (fun b => fromBase b "km/h") =
        some ((10 * 1 : ℚ) / (1 / 3.6)) from rfl]
    norm_num
  · exact ⟨1 / 0.45359237, rfl, by norm_num [abs_le]⟩
  · exact ⟨1 / 0.44704, rfl, by norm_num [abs_le]⟩

/-- C9: `formatValue` renders the display value with fixed precision, a
space and the unit string (`"1.00 kg"`, `"100.00 cm"`), and
`formatBaseValue` on a `null`/`undefined`/`NaN` base value never fails:
it returns the placeholder glyph together with the display unit that
would have been used. -/
theorem C9_formatting :
    formatValue 1 "kg" 2 = some "1.00 kg" ∧
    formatValue 1 "cm" 2 = some "100.00 cm" ∧
    (∀ (b : ℚ) (u : String) (p : ℕ) (d : ℚ), fromBase b u = some d →
      formatValue b u p = some (toFixed d p ++ " " ++ u)) ∧
    (∀ k prefs precision,
      formatBaseValue JSNum.null k prefs precision =
        some ⟨none, "—", getDisplayUnit (getMetricType k) prefs⟩ ∧
      formatBaseValue JSNum.undef k prefs precision =
        some ⟨none, "—", getDisplayUnit (getMetricType k) prefs⟩ ∧
      formatBaseValue JSNum.nan k prefs precision =
        some ⟨none, "—", getDisplayUnit (getMetricType k) prefs⟩) := by
  refine ⟨?_, ?_, ?_, fun k prefs precision => ⟨rfl, rfl, rfl⟩⟩
  · rw [show formatValue 1 "kg" 2 =
        some (renderFixed ⌊(1 / 1 : ℚ) * 10 ^ 2 + 1 / 2⌋ 2 ++ " " ++ "kg") from rfl,
      show ⌊(1 / 1 : ℚ) * 10 ^ 2 + 1 / 2⌋ = (100 : ℤ) by norm_num]
    decide
  · rw [show formatValue 1 "cm" 2 =
        some (renderFixed ⌊((1 : ℚ) / 0.01) * 10 ^ 2 + 1 / 2⌋ 2 ++ " " ++ "cm") from rfl,
      show ⌊((1 : ℚ) / 0.01) * 10 ^ 2 + 1 / 2⌋ = (10000 : ℤ) by norm_num]
    decide
  · intro b u p d h
    unfold formatValue
    rw [h]

theorem C9_formatting_witness :
    fromBase 2 "kg" = some (2 / 1) ∧
    formatValue 2 "kg" 1 = some (toFixed (2 / 1) 1 ++ " " ++ "kg") :=
  ⟨rfl, C9_formatting.2.2.1 2 "kg" 1 (2 / 1) rfl⟩

/-- C10: validating a batch against its own migration output always
succeeds: the lengths, order, ids and audit fields are preserved, so the
report has `success = true`, no errors, and zero failures. -/
theorem C10_selfValidation (records : List TestResultMigrationData) :
    (validateMigration records (migrateTestResults records)).success = true ∧
    (validateMigration records (migrateTestResults records)).errors = [] ∧
    (validateMigration records (migrateTestResults records)).stats.failed = 0 := by
  obtain ⟨h1, h2⟩ := valLoop_self records 0 ⟨[], [], 0, 0, 0⟩
  unfold validateMigration migrateTestResults
  rw [if_neg (by simp)]
  dsimp only
  exact ⟨by rw [h1]; rfl, h1, h2⟩

end FitScore
